/-
  Verification of the zhihuiwenzhang repository core against its specification.

  The embedding translates the two API route modules:
    * src/app/api/generate/route.ts  (generate handler, buildPrompt, formatSearchData,
      selectContentPrompt, selectStyleHint)
    * src/app/api/search/route.ts    (search handler, querySerpstack)
  into pure Lean functions.  External effects (the outbound fetch calls, the
  filesystem-loaded prompt assets, the environment variables and the clock) are
  modelled as explicit parameters/oracles, so every function is total and
  executable.  JavaScript string truthiness (undefined and "" are falsy) is
  modelled explicitly where the source relies on it.
-/
import Mathlib

set_option maxRecDepth 100000

/- ------------------------------------------------------------------ -/
/- Generic helpers shared by both route modules                        -/
/- ------------------------------------------------------------------ -/

/-- JavaScript `Array.prototype.join(sep)`: empty list gives `""`,
    singleton gives the element, otherwise elements interleaved with `sep`. -/
def joinSep (sep : String) : List String → String
  | [] => ""
  | [a] => a
  | a :: b :: rest => a ++ sep ++ joinSep sep (b :: rest)

/-- JavaScript `x || d` for an optional string `x`: `undefined` and `""`
    are falsy and fall through to the default. -/
def orElseStr (o : Option String) (d : String) : String :=
  match o with
  | none => d
  | some s => if s = "" then d else s

/-- JavaScript `String.prototype.trim()`: strip leading and trailing
    whitespace.  (Defined over the character list so that it is fully
    computable by the kernel.) -/
def jsTrim (s : String) : String :=
  ⟨((s.data.dropWhile Char.isWhitespace).reverse.dropWhile Char.isWhitespace).reverse⟩

/-- Substring containment, modelling JavaScript `String.prototype.includes`. -/
def containsStr (s t : String) : Bool :=
  s.data.tails.any (fun suf => t.data.isPrefixOf suf)

/-- JavaScript `s.substring(0, 200)` (first 200 code units; all characters in
    these sources are in the BMP, so one character per code unit). -/
def take200 (s : String) : String :=
  ⟨s.data.take 200⟩

/-- Number of occurrences of character `c` in string `s`. -/
def countChar (s : String) (c : Char) : Nat :=
  s.data.count c

theorem countChar_append (a b : String) (c : Char) :
    countChar (a ++ b) c = countChar a c + countChar b c := by
  simp [countChar, String.data_append, List.count_append]

theorem countChar_eq_zero (s : String) (c : Char) (h : c ∉ s.data) :
    countChar s c = 0 := by
  simp [countChar, List.count_eq_zero, h]

/-- An infix piece cannot contain a character more often than the whole. -/
theorem countChar_le_of_infix (t s : String) (c : Char)
    (h : t.data <:+: s.data) : countChar t c ≤ countChar s c :=
  List.Sublist.count_le h.sublist c

/- ------------------------------------------------------------------ -/
/- src/app/api/search/route.ts                                         -/
/- ------------------------------------------------------------------ -/

/-- `SearchResultItem` as declared in src/app/api/search/route.ts
    (all fields required there, `source` is the literal "serpstack"). -/
structure SerpItem where
  title : String
  snippet : String
  link : String
  source : String
deriving DecidableEq

/-- One element of serpstack's `organic_results` array: every field may be
    absent (`none`) or present; the empty string is falsy like in JS. -/
structure SerpRaw where
  title : Option String := none
  snippet : Option String := none
  url : Option String := none
deriving DecidableEq

/-- JS truthiness of an optional string: `undefined` and `""` are falsy. -/
def truthy (o : Option String) : Bool :=
  !(o.getD "").isEmpty

/-- The filter-and-map normalization inside `querySerpstack`
    (`organic.filter(item => item.title && item.snippet && item.url).map(...)`). -/
def normalizeSerp (organic : List SerpRaw) : List SerpItem :=
  (organic.filter (fun i => truthy i.title && truthy i.snippet && truthy i.url)).map
    (fun i => ⟨i.title.getD "", i.snippet.getD "", i.url.getD "", "serpstack"⟩)

/-- Outcome of the single outbound fetch performed by `querySerpstack`:
    the fetch may throw, the response may be non-2xx, the provider may report
    an error field, or we get the `organic_results` list (absent ⇒ `[]`,
    since the source reads `data.organic_results || []`). -/
inductive SerpOutcome where
  | fetchErr
  | httpErr (status : Nat) (text : String)
  | apiErr (info : String)
  | ok (organic : List SerpRaw)
deriving DecidableEq

/-- `querySerpstack` from src/app/api/search/route.ts.  The non-2xx and
    provider-error branches `throw` inside the function's own `try`, and its
    trailing `catch` converts every such throw — and any fetch error — to
    `null`; so the function is total and all failures are `none`. -/
def querySerpstack (o : SerpOutcome) : Option (List SerpItem) :=
  match o with
  | .fetchErr => none
  | .httpErr _ _ => none
  | .apiErr _ => none
  | .ok organic => if organic.isEmpty then none else some (normalizeSerp organic)

/-- The JSON response of the search route: a 200 body `{model, results}` or an
    error body `{error}` with a status code. -/
inductive SearchResponse where
  | ok (model : String) (results : List SerpItem)
  | err (status : Nat) (error : String)
deriving DecidableEq

/-- `POST` from src/app/api/search/route.ts, over the parsed request body
    (`modelField` is `body.model`), the `SERPSTACK_API_KEY` environment
    variable, and the fetch outcome.  `body.model?.trim()` is falsy when the
    field is absent or trims to `""`; `!SERPSTACK_API_KEY` is truthy when the
    variable is unset or empty. -/
def searchPOST (key : Option String) (modelField : Option String)
    (o : SerpOutcome) : SearchResponse :=
  let model := jsTrim (modelField.getD "")
  if model = "" then .err 400 "型号不能为空"
  else if (key.getD "") = "" then .err 500 "SERPSTACK_API_KEY 未配置"
  else
    match querySerpstack o with
    | none => .err 502 "未能获取搜索结果，请稍后再试"
    | some results =>
      if results.isEmpty then .err 502 "未能获取搜索结果，请稍后再试"
      else .ok model results

/-- A raw result is retained by the normalization filter. -/
def serpComplete (i : SerpRaw) : Bool :=
  truthy i.title && truthy i.snippet && truthy i.url

/-- The normalized record built from a retained raw result. -/
def serpNormalize (i : SerpRaw) : SerpItem :=
  ⟨i.title.getD "", i.snippet.getD "", i.url.getD "", "serpstack"⟩

/- ------------------------------------------------------------------ -/
/- src/app/api/generate/route.ts                                       -/
/- ------------------------------------------------------------------ -/

/-- `SearchResultItem` as declared in src/app/api/generate/route.ts
    (`link` and `source` optional there). -/
structure GenItem where
  title : String
  snippet : String
  link : Option String := none
  source : Option String := none
deriving DecidableEq

/-- The parsed JSON body of a generate request.  Absent fields are `none`;
    `searchData` is the JSON object as an association list (JSON object keys
    are unique). -/
structure GenerateRequest where
  title : Option String := none
  models : Option (List String) := none
  searchData : Option (List (String × List GenItem)) := none
  contentType : Option String := none
  stylePreference : Option String := none

/-- The four static guidance texts loaded at process start by `safeRead`
    (a text that failed to load is the empty string). -/
structure PromptAssets where
  appliance : String := ""
  beauty : String := ""
  gift : String := ""
  discussion : String := ""

/-- Process environment of the generate route: the two credential variables,
    the endpoint override, and the loaded prompt assets. -/
structure Env where
  aiApiUrl : Option String := none
  aiApiKey : Option String := none
  openaiApiKey : Option String := none
  assets : PromptAssets := {}

/-- `process.env.AI_API_URL || "https://api.openai.com/v1/chat/completions"`. -/
def aiUrlOf (env : Env) : String :=
  orElseStr env.aiApiUrl "https://api.openai.com/v1/chat/completions"

/-- `process.env.AI_API_KEY || process.env.OPENAI_API_KEY`, flattened to a
    string where `""` stands for "no usable credential" (JS truthiness). -/
def aiKeyOf (env : Env) : String :=
  orElseStr env.aiApiKey (orElseStr env.openaiApiKey "")

/-- The hard timeout (milliseconds) armed around the completion fetch:
    `setTimeout(() => controller.abort(), 120000)`. -/
def timeoutMs : Nat := 120000

/-- The `zhihuPersona` system text (src/app/api/generate/route.ts). -/
def zhihuPersona : String :=
  "你是一名长期活跃在知乎的普通用户。\n\n【身份】\n- 不是媒体、不是测评机构\n- 不接广告、不写软文\n- 写回答是因为真的思考过这个问题\n\n【写作状态】\n- 像在认真给陌生网友回帖\n- 允许犹豫、不确定、改口\n- 不追求完美逻辑，但追求真实\n\n【禁止】\n- 不要写成测评报告\n- 不要写成种草/导购文\n- 不要自称“整理”“总结”“查资料”\n- 不出现 AI、模型、数据来源、公开信息 等字样\n\n目标：让回答在知乎看起来像真人原创内容。"

/- The with-models template of `buildPrompt`, split exactly at its
   interpolation points (and at the who-it-suits line, which claims refer to):
   bp1 ++ title ++ bp2 ++ modelsText ++ bp3 ++ suitLine ++ bp4
       ++ (beautyNotes when contentType is beauty) ++ bp5 ++ styleHint
       ++ bp6 ++ searchDigest ++ bp7 -/

def bp1 : String :=
  "你正在知乎回答下面这个问题：\n\n「"

def bp2 : String :=
  "」\n\n核心写作规则（非常重要）：\n1. 必须从“直接回应提问者的核心困惑”开始，而不是商品或个人经历。\n2. 回答的重点是：如何判断 / 如何选择 / 如何避免踩坑，而不是推荐具体产品。\n3. 商品只是用来说明观点的例子，不是主角。\n\n关于商品的使用方式：\n- 可用来举例的商品有："

def bp3 : String :=
  "\n- 不要求每个商品都写同样多，商品段落不要结构完全一致，可以有的写详细，有的只轻描淡写，允许插入个人跑题或临时感受，避免清单感。\n- 允许有的商品只是一笔带过\n- "

/-- The instruction line requiring each mentioned product to state who it
    suits and who it does not. -/
def suitLine : String :=
  "每个被提到的商品，必须同时出现「适合谁」和「不适合谁」"

def bp4 : String :=
  "\n- 商品之间不要形成明显的“清单感”或“评测感”\n\n干货表达方式（重要）：\n- 少写\"配置说明\"，多写\"使用判断逻辑\"\n- 技术点只能用于解释\"为什么适合 / 不适合\"\n- 不写参数表、价格、榜单、推荐语\n"

/-- The fragrance top/heart/base-note guidance inserted by the
    `contentType === "beauty"` ternary (it begins with the newline that is
    inside the inner template literal). -/
def beautyNotes : String :=
  "\n关于香水类商品的香调描述（非常重要）：\n- 如果涉及香水，必须详细描述香调：前调、中调、后调\n- 用大白话、有吸引力的文字描述香味，让读者能\"闻到\"那种感觉\n- 不要只列香调名称（如\"柑橘、茉莉、麝香\"），要描述实际闻起来的感觉\n- 前调：描述刚喷出来那一刻的感觉（比如\"像刚剥开的橙子，清新但不刺鼻\"）\n- 中调：描述味道稳定后的感觉（比如\"慢慢变成温温柔柔的花香，像雨后花园\"）\n- 后调：描述最后留下的余香（比如\"最后是淡淡的木质调，闻起来很安心，像冬天晒太阳的感觉\"）\n- 可以用生活场景比喻（\"像小时候奶奶家的味道\"\"像刚洗完的白衬衫\"）\n- 可以描述在不同场合的感受（\"夏天用很清爽，但冬天感觉有点单薄\"）\n- 让香调描述成为回答的亮点，用具体、生动的语言让读者产生共鸣"

def bp5 : String :=
  "\n\n语言与风格：\n- 第一人称\n- 允许犹豫、反复、改口\n- 像真实用户边想边打字\n- 不要总结全文\n"

def bp6 : String :=
  "\n\n结尾要求：\n- 用一个带立场或纠结点的问题收尾\n- 让读者忍不住想反驳或分享自己经历\n\n下面是一些背景信息，仅用于你理解商品差异，不要逐字照抄：\n\n"

def bp7 : String :=
  "\n\n请直接输出完整回答内容，不解释写作过程。"

/- The no-models template: np1 ++ title ++ np2 ++ styleHint. -/

def np1 : String :=
  "你正在知乎回答下面这个问题：\n\n「"

def np2 : String :=
  "」\n\n写作要求：\n\n- 必须从\"直接回应问题本身的核心困惑\"开始，先说清楚你的观点。\n\n- 之后用生活经验和观察来支撑观点。\n\n- 允许犹豫、不同角度分析、对比，不要求完全对称。\n\n- 允许提出看法并表达\"别人可能不一样\"的观点。\n\n- 可以在过程中加入\"我自己经历过 / 我身边朋友遇到…\"等细节。\n\n- 不要写总结式收尾，而是留一个可以引发讨论的点。\n\n- 不要出现 AI、模型、搜索、数据来源 等字样。\n\n语言风格：\n\n- 口语化、自然、有停顿、可以有转折\n\n- 段落长短不一，更像真实用户写的回答\n\n- 不要用 #、## 等 Markdown 标题符号\n\n请直接开始输出完整回答内容，不解释你的写作过程。"

/-- The style-hint conditional at the top of `buildPrompt`
    (note: these sentences differ from the ones in `selectStyleHint`). -/
def buildPromptStyleHint (writingStyle : String) : String :=
  if writingStyle = "rational" then "\n写作倾向：偏理性，多给决策思路，少情绪化描述。"
  else if writingStyle = "experience" then "\n写作倾向：偏体验，多讲真实感受和细节，允许不完全严谨。"
  else ""

/-- `buildPrompt` from src/app/api/generate/route.ts. -/
def buildPrompt (title : String) (models : List String) (searchDigest : String)
    (hasModels : Bool) (writingStyle : String) (contentType : String) : String :=
  let styleHint := buildPromptStyleHint writingStyle
  if hasModels then
    let modelsText := joinSep "、" models
    bp1 ++ title ++ bp2 ++ modelsText ++ bp3 ++ suitLine ++ bp4 ++
      (if contentType = "beauty" then beautyNotes else "") ++
      bp5 ++ styleHint ++ bp6 ++ searchDigest ++ bp7
  else
    np1 ++ title ++ np2 ++ styleHint

/-- `formatSearchData` from src/app/api/generate/route.ts. -/
def formatSearchData (models : List String)
    (searchData : List (String × List GenItem)) : String :=
  joinSep "\n\n" (models.map (fun model =>
    let items := (searchData.lookup model).getD []
    if items.isEmpty then model ++ "：暂无摘要"
    else
      model ++ "：\n" ++
        joinSep "\n" ((items.take 4).map (fun i => "- " ++ i.title ++ "：" ++ i.snippet))))

/-- `selectContentPrompt` from src/app/api/generate/route.ts
    (`appliancePrompt || discussionPrompt` falls back when the loaded text is
    empty, i.e. when `safeRead` failed). -/
def selectContentPrompt (a : PromptAssets) (contentType : String) : String :=
  if contentType = "appliance" then (if a.appliance = "" then a.discussion else a.appliance)
  else if contentType = "beauty" then (if a.beauty = "" then a.discussion else a.beauty)
  else if contentType = "gift" then (if a.gift = "" then a.discussion else a.gift)
  else a.discussion

/-- `selectStyleHint` from src/app/api/generate/route.ts. -/
def selectStyleHint (stylePreference : String) : String :=
  if stylePreference = "rational" then "写作倾向：偏理性，多给决策思路，少感性描述。"
  else if stylePreference = "experience" then "写作倾向：偏体验，多说真实感受、使用场景、情绪。"
  else ""

/-- The models pipeline at the top of the generate handler:
    `(body.models || []).map(m => m.trim()).filter(Boolean).slice(0, 3)`. -/
def processModels (ms : List String) : List String :=
  ((ms.map jsTrim).filter (fun s => !s.isEmpty)).take 3

/-- Outcome of the completion fetch: either the promise rejected (with an
    `Error` carrying `name`/`message`, or a non-`Error` value), or a response
    arrived with `ok`/`status`/`statusText`, a body text (`none` when
    `response.text()` itself throws) and the extracted
    `data.choices?.[0]?.message?.content` field. -/
inductive FetchResult where
  | exn (isError : Bool) (name : String) (msg : String)
  | resp (ok : Bool) (status : Nat) (statusText : String)
      (bodyText : Option String) (content : Option String)

/-- `metadata` of a successful generate response. -/
structure GenMetadata where
  title : String
  models : List String
  contentType : String
  stylePreference : String
  generatedAt : String
deriving DecidableEq

/-- The JSON response of the generate route. -/
inductive GenResponse where
  | ok (article : String) (meta : GenMetadata)
  | err (status : Nat) (error : String)
deriving DecidableEq

/-- Error message thrown when the abort fired or the fetch error mentions a
    timeout. -/
def timeoutMsg : String :=
  "API 请求超时（120秒），请检查网络连接或稍后重试"

/-- Error message for a transport-level connection failure, naming the
    configured endpoint. -/
def connectMsg (url : String) : String :=
  "无法连接到 API 服务器 (" ++ url ++ ")，请检查网络连接或 API 地址配置"

/-- Error message for a non-2xx upstream response, carrying the body
    truncated to 200 characters. -/
def upstreamMsg (status : Nat) (bodyText : String) : String :=
  "API 调用失败 (" ++ toString status ++ "): " ++ take200 bodyText

/-- Error message for a 2xx response whose extracted text is empty. -/
def emptyGenMsg : String :=
  "生成内容为空"

/-- The user prompt as assembled by the generate handler. -/
def generateUserPrompt (body : GenerateRequest) : String :=
  let title := jsTrim (body.title.getD "")
  let models := processModels (body.models.getD [])
  let hasModels := !models.isEmpty
  let searchDigest :=
    if hasModels then formatSearchData models (body.searchData.getD []) else ""
  buildPrompt title models searchDigest hasModels
    (orElseStr body.stylePreference "random") (orElseStr body.contentType "discussion")

/-- The part of the generate handler from the credential check onwards
    (lines 99–173 of src/app/api/generate/route.ts): check the credential,
    inspect the completion-fetch outcome, map each failure to its 500 message
    and build the success payload.  Every `throw` is turned into a 500
    `{error}` response by the handler's surrounding `catch`, which is what
    the `.err 500` branches model. -/
def completionStep (env : Env) (fr : FetchResult) (title : String)
    (models : List String) (contentType stylePreference now : String) : GenResponse :=
  if aiKeyOf env = "" then .err 500 "AI_API_KEY 未配置"
  else
    match fr with
    | .exn isError name msg =>
      if isError then
        if name = "AbortError" ∨ containsStr msg "timeout" then
          .err 500 timeoutMsg
        else if containsStr msg "Failed to fetch" ∨ containsStr msg "fetch failed" then
          .err 500 (connectMsg (aiUrlOf env))
        else .err 500 ("网络请求失败: " ++ msg)
      else .err 500 "网络请求失败，请稍后重试"
    | .resp ok status statusText bodyText content =>
      if !ok then .err 500 (upstreamMsg status (bodyText.getD statusText))
      else
        let article := content.getD ""
        if article = "" then .err 500 emptyGenMsg
        else .ok article ⟨title, models, contentType, stylePreference, now⟩

/-- `POST` from src/app/api/generate/route.ts, over the parsed body, the
    process environment, the completion-fetch outcome and the current time. -/
def generatePOST (env : Env) (body : GenerateRequest) (fr : FetchResult)
    (now : String) : GenResponse :=
  let title := jsTrim (body.title.getD "")
  let models := processModels (body.models.getD [])
  let contentType := orElseStr body.contentType "discussion"
  let stylePreference := orElseStr body.stylePreference "random"
  if title = "" then .err 400 "标题不能为空"
  else if !models.isEmpty && (body.searchData.getD []).isEmpty then
    .err 400 "缺少搜索数据 searchData"
  else
    let _userPrompt := generateUserPrompt body
    let _systemPrompt :=
      joinSep "\n\n"
        (([zhihuPersona, selectContentPrompt env.assets contentType,
            selectStyleHint stylePreference]).filter (fun s => !s.isEmpty))
    completionStep env fr title models contentType stylePreference now

/- ------------------------------------------------------------------ -/
/- Theorems                                                            -/
/- ------------------------------------------------------------------ -/

/-- C3: the search endpoint's only failure statuses are 400 (model name
    missing or trims to empty), 500 (search credential not configured) and
    502 (the search client yields the no-results outcome); and
    `querySerpstack` never throws past its own boundary — transport failures,
    non-2xx provider responses, provider-reported error fields and an empty
    raw result list all become the same `none` ("no results") outcome, which
    the handler maps to 502. -/
theorem search_route_failure_modes (key modelField : Option String) (o : SerpOutcome) :
    (jsTrim (modelField.getD "") = "" →
        searchPOST key modelField o = .err 400 "型号不能为空")
    ∧ (jsTrim (modelField.getD "") ≠ "" → (key.getD "") = "" →
        searchPOST key modelField o = .err 500 "SERPSTACK_API_KEY 未配置")
    ∧ (jsTrim (modelField.getD "") ≠ "" → (key.getD "") ≠ "" →
        querySerpstack o = none →
        searchPOST key modelField o = .err 502 "未能获取搜索结果，请稍后再试")
    ∧ querySerpstack .fetchErr = none
    ∧ (∀ s t, querySerpstack (.httpErr s t) = none)
    ∧ (∀ i, querySerpstack (.apiErr i) = none)
    ∧ querySerpstack (.ok []) = none
    ∧ (∀ s e, searchPOST key modelField o = .err s e → s = 400 ∨ s = 500 ∨ s = 502) := by
  refine ⟨?_, ?_, ?_, rfl, fun s t => rfl, fun i => rfl, by simp [querySerpstack], ?_⟩
  · intro h; simp [searchPOST, h]
  · intro h hk; simp [searchPOST, h, hk]
  · intro h hk hq; simp [searchPOST, h, hk, hq]
  · intro s e h
    by_cases h1 : jsTrim (modelField.getD "") = ""
    · simp [searchPOST, h1] at h
      omega
    · by_cases h2 : (key.getD "") = ""
      · simp [searchPOST, h1, h2] at h
        omega
      · rcases hq : querySerpstack o with _ | results
        · simp [searchPOST, h1, h2, hq] at h
          omega
        · by_cases h3 : results.isEmpty
          · simp [searchPOST, h1, h2, hq, h3] at h
            omega
          · simp [searchPOST, h1, h2, hq, h3] at h

/-- C3 witness: with a configured key, a non-empty model name and a failed
    provider fetch, the handler answers 502. -/
theorem search_route_failure_modes_witness :
    searchPOST (some "k") (some " m ") .fetchErr
      = .err 502 "未能获取搜索结果，请稍后再试" :=
  (search_route_failure_modes (some "k") (some " m ") .fetchErr).2.2.1
    (by decide) (by decide) rfl

/-- C7 counterexample: the normalization in `querySerpstack` never truncates
    locally, so a raw list of eleven complete results yields eleven output
    records — the output length is not bounded by the requested cap of 10. -/
theorem serp_normalization_cap_counterexample :
    ¬ ((normalizeSerp (List.replicate 11 ⟨some "t", some "s", some "u"⟩)).length ≤ 10) := by
  decide

/-- C7 (amended): normalization excludes exactly the raw results missing a
    (truthy) title, snippet or link; the output is the in-order image of a
    sublist of the input, so input order is preserved; and the output length
    never exceeds the input length — in particular it is at most 10 whenever
    the provider honours the requested cap of 10 raw results.  (The code
    itself performs no local truncation to the cap.) -/
theorem serp_normalization_amended (l : List SerpRaw) :
    normalizeSerp l = (l.filter serpComplete).map serpNormalize
    ∧ List.Sublist (l.filter serpComplete) l
    ∧ (∀ x ∈ normalizeSerp l, ∃ r ∈ l, serpComplete r = true ∧ x = serpNormalize r)
    ∧ (∀ r ∈ l, serpComplete r = true → serpNormalize r ∈ normalizeSerp l)
    ∧ (normalizeSerp l).length ≤ l.length
    ∧ (l.length ≤ 10 → (normalizeSerp l).length ≤ 10) := by
  have hlen : (normalizeSerp l).length ≤ l.length := by
    simp only [normalizeSerp, List.length_map]
    exact List.length_filter_le _ l
  refine ⟨rfl, List.filter_sublist l, ?_, ?_, hlen, fun h => le_trans hlen h⟩
  · intro x hx
    simp only [normalizeSerp, List.mem_map, List.mem_filter] at hx
    obtain ⟨r, ⟨hrl, hrc⟩, rfl⟩ := hx
    exact ⟨r, hrl, hrc, rfl⟩
  · intro r hrl hrc
    simp only [normalizeSerp, List.mem_map, List.mem_filter]
    exact ⟨r, ⟨hrl, hrc⟩, rfl⟩

/-- C7 witness: on a two-element list whose second raw result lacks a
    snippet, the (amended) bound applies and the output stays within 10. -/
theorem serp_normalization_amended_witness :
    (normalizeSerp [⟨some "t", some "s", some "u"⟩, ⟨some "t2", none, some "u2"⟩]).length ≤ 10 :=
  (serp_normalization_amended
      [⟨some "t", some "s", some "u"⟩, ⟨some "t2", none, some "u2"⟩]).2.2.2.2.2
    (by decide)

/-- The digest line for one search item, in the shape the spec describes. -/
def digestLine (i : GenItem) : String :=
  "- " ++ i.title ++ "：" ++ i.snippet

/-- The digest block for one product, in the shape the spec describes: at
    most the first four snippet items, rendered one per line, or the fixed
    no-summary line when the product has no snippet list or an empty one. -/
def digestBlock (m : String) (items : List GenItem) : String :=
  if items.isEmpty then m ++ "：暂无摘要"
  else m ++ "：\n" ++ joinSep "\n" ((items.take 4).map digestLine)

/-- C8: the search digest renders the products in the order of the models
    list, one block per product; a block uses at most the first 4 snippet
    items ("- title: snippet" lines) and degrades to the fixed no-summary
    line when the product has no (or an empty) snippet list; a block is
    invariant under truncating the item list to its first 4 elements, and
    never renders more than 4 lines. -/
theorem formatSearchData_digest_shape :
    (∀ (models : List String) (sd : List (String × List GenItem)),
        formatSearchData models sd
          = joinSep "\n\n" (models.map (fun m => digestBlock m ((sd.lookup m).getD []))))
    ∧ (∀ m (items : List GenItem), digestBlock m items = digestBlock m (items.take 4))
    ∧ (∀ m (items : List GenItem), digestBlock m [] = m ++ "：暂无摘要"
        ∧ (items ≠ [] → digestBlock m items
            = m ++ "：\n" ++ joinSep "\n" ((items.take 4).map digestLine)))
    ∧ (∀ (items : List GenItem), ((items.take 4).map digestLine).length ≤ 4) := by
  refine ⟨fun models sd => rfl, ?_, ?_, ?_⟩
  · intro m items
    cases items with
    | nil => rfl
    | cons a rest =>
      simp [digestBlock, List.take_take]
  · intro m items
    refine ⟨rfl, fun h => ?_⟩
    simp [digestBlock, h]
  · intro items
    simp [List.length_take_le 4 items]

/- Infix helpers for reasoning about the concatenated templates. -/

theorem strInfix_self (s : String) : s.data <:+: s.data :=
  List.infix_refl _

theorem strInfix_append_l (t a b : String) (h : t.data <:+: a.data) :
    t.data <:+: (a ++ b).data := by
  rw [String.data_append]
  obtain ⟨u, v, huv⟩ := h
  exact ⟨u, v ++ b.data, by rw [← huv]; simp [List.append_assoc]⟩

theorem strInfix_append_r (t a b : String) (h : t.data <:+: b.data) :
    t.data <:+: (a ++ b).data := by
  rw [String.data_append]
  obtain ⟨u, v, huv⟩ := h
  exact ⟨a.data ++ u, v, by rw [← huv]; simp [List.append_assoc]⟩

/-- An element of a joined list is contained in the join
    (`models.join("、")` contains every model name). -/
theorem strInfix_joinSep (sep : String) (l : List String) (m : String)
    (hm : m ∈ l) : m.data <:+: (joinSep sep l).data := by
  induction l with
  | nil => cases hm
  | cons a rest ih =>
    rcases List.mem_cons.mp hm with rfl | hmem
    · cases rest with
      | nil => exact strInfix_self m
      | cons b r2 =>
        show m.data <:+: (m ++ sep ++ joinSep sep (b :: r2)).data
        exact strInfix_append_l _ _ _ (strInfix_append_l _ _ _ (strInfix_self m))
    · cases rest with
      | nil => cases hmem
      | cons b r2 =>
        show m.data <:+: (a ++ sep ++ joinSep sep (b :: r2)).data
        exact strInfix_append_r _ _ _ (ih hmem)

/-- The with-models branch of `buildPrompt`, written as one append chain. -/
theorem buildPrompt_true_eq (title : String) (models : List String)
    (digest ws ct : String) :
    buildPrompt title models digest true ws ct
      = bp1 ++ title ++ bp2 ++ joinSep "、" models ++ bp3 ++ suitLine ++ bp4 ++
          (if ct = "beauty" then beautyNotes else "") ++ bp5 ++
          buildPromptStyleHint ws ++ bp6 ++ digest ++ bp7 := rfl

/-- The no-models branch of `buildPrompt`. -/
theorem buildPrompt_false_eq (title : String) (models : List String)
    (digest ws ct : String) :
    buildPrompt title models digest false ws ct
      = np1 ++ title ++ np2 ++ buildPromptStyleHint ws := rfl

/-- C9: `selectContentPrompt` is total and never errors: for "appliance",
    "beauty" or "gift" it returns that guidance block, falling back to the
    discussion block when the requested block is empty (failed to load); for
    any other value it returns the discussion block; hence its result is
    non-empty whenever the discussion guidance text is non-empty. -/
theorem selectContentPrompt_total_fallback (a : PromptAssets) (ct : String) :
    (ct = "appliance" → selectContentPrompt a ct
        = (if a.appliance = "" then a.discussion else a.appliance))
    ∧ (ct = "beauty" → selectContentPrompt a ct
        = (if a.beauty = "" then a.discussion else a.beauty))
    ∧ (ct = "gift" → selectContentPrompt a ct
        = (if a.gift = "" then a.discussion else a.gift))
    ∧ (ct ≠ "appliance" → ct ≠ "beauty" → ct ≠ "gift" →
        selectContentPrompt a ct = a.discussion)
    ∧ (a.discussion ≠ "" → selectContentPrompt a ct ≠ "") := by
  refine ⟨?_, ?_, ?_, ?_, ?_⟩
  · intro h; subst h; simp [selectContentPrompt]
  · intro h; subst h; simp [selectContentPrompt]
  · intro h; subst h; simp [selectContentPrompt]
  · intro h1 h2 h3; simp [selectContentPrompt, h1, h2, h3]
  · intro hd
    unfold selectContentPrompt
    split_ifs <;> simp_all

/-- C9 witness: an unrecognized content type falls back to the (non-empty)
    discussion block, so the result is the discussion block and non-empty. -/
theorem selectContentPrompt_total_fallback_witness :
    selectContentPrompt ⟨"", "", "", "D"⟩ "unknown" = "D"
    ∧ selectContentPrompt ⟨"", "", "", "D"⟩ "unknown" ≠ "" :=
  ⟨(selectContentPrompt_total_fallback ⟨"", "", "", "D"⟩ "unknown").2.2.2.1
      (by decide) (by decide) (by decide),
   (selectContentPrompt_total_fallback ⟨"", "", "", "D"⟩ "unknown").2.2.2.2
      (by decide)⟩

/-- C6: the style-hint logic is a pure function of the style preference:
    "rational" yields the decision-oriented hint sentence, "experience" the
    experience-oriented one, and "random" or any other value the empty
    string — both for the hint appended inside `buildPrompt` and for
    `selectStyleHint` used in the system prompt; all four hint sentences are
    non-empty, and `buildPrompt` always embeds exactly the hint chosen by
    `buildPromptStyleHint`. -/
theorem styleHint_pure_function (s : String) (title : String)
    (models : List String) (digest : String) (hm : Bool) (ct : String) :
    (buildPromptStyleHint "rational" = "\n写作倾向：偏理性，多给决策思路，少情绪化描述。"
      ∧ selectStyleHint "rational" = "写作倾向：偏理性，多给决策思路，少感性描述。")
    ∧ (buildPromptStyleHint "experience" = "\n写作倾向：偏体验，多讲真实感受和细节，允许不完全严谨。"
      ∧ selectStyleHint "experience" = "写作倾向：偏体验，多说真实感受、使用场景、情绪。")
    ∧ (s ≠ "rational" → s ≠ "experience" →
        buildPromptStyleHint s = "" ∧ selectStyleHint s = "")
    ∧ buildPromptStyleHint "rational" ≠ "" ∧ buildPromptStyleHint "experience" ≠ ""
    ∧ selectStyleHint "rational" ≠ "" ∧ selectStyleHint "experience" ≠ ""
    ∧ (buildPromptStyleHint s).data <:+: (buildPrompt title models digest hm s ct).data := by
  refine ⟨⟨rfl, rfl⟩, ⟨rfl, rfl⟩, ?_, by decide, by decide, by decide, by decide, ?_⟩
  · intro h1 h2
    constructor
    · simp [buildPromptStyleHint, h1, h2]
    · simp [selectStyleHint, h1, h2]
  · cases hm with
    | true =>
      rw [buildPrompt_true_eq]
      exact strInfix_append_l _ _ _ (strInfix_append_l _ _ _ (strInfix_append_l _ _ _
        (strInfix_append_r _ _ _ (strInfix_self _))))
    | false =>
      rw [buildPrompt_false_eq]
      exact strInfix_append_r _ _ _ (strInfix_self _)

/-- C6 witness: "random" yields the empty hint in both places. -/
theorem styleHint_pure_function_witness :
    buildPromptStyleHint "random" = "" ∧ selectStyleHint "random" = "" :=
  (styleHint_pure_function "random" "X" [] "" true "discussion").2.2.1
    (by decide) (by decide)

/-- C4: for every non-empty title and non-empty models list of at most 3
    names, the with-models output of `buildPrompt` contains every model name
    at least once and contains the instruction line requiring each mentioned
    product to state who it suits and who it does not suit. -/
theorem buildPrompt_contains_models (title : String) (models : List String)
    (digest ws ct : String) (ht : title ≠ "") (hne : models ≠ [])
    (hlen : models.length ≤ 3) :
    (∀ m ∈ models, m.data <:+: (buildPrompt title models digest true ws ct).data)
    ∧ suitLine.data <:+: (buildPrompt title models digest true ws ct).data := by
  constructor
  · intro m hm
    rw [buildPrompt_true_eq]
    exact strInfix_append_l _ _ _ (strInfix_append_l _ _ _ (strInfix_append_l _ _ _
      (strInfix_append_l _ _ _ (strInfix_append_l _ _ _ (strInfix_append_l _ _ _
      (strInfix_append_l _ _ _ (strInfix_append_l _ _ _ (strInfix_append_l _ _ _
      (strInfix_append_r _ _ _ (strInfix_joinSep "、" models m hm))))))))))
  · rw [buildPrompt_true_eq]
    exact strInfix_append_l _ _ _ (strInfix_append_l _ _ _ (strInfix_append_l _ _ _
      (strInfix_append_l _ _ _ (strInfix_append_l _ _ _ (strInfix_append_l _ _ _
      (strInfix_append_l _ _ _ (strInfix_append_r _ _ _ (strInfix_self _))))))))

/-- C4 witness: a concrete two-model prompt contains the model name "A" and
    the who-it-suits instruction line. -/
theorem buildPrompt_contains_models_witness :
    ("A" : String).data <:+: (buildPrompt "X" ["A", "B"] "" true "random" "discussion").data
    ∧ suitLine.data <:+: (buildPrompt "X" ["A", "B"] "" true "random" "discussion").data :=
  ⟨(buildPrompt_contains_models "X" ["A", "B"] "" "random" "discussion"
      (by decide) (by decide) (by decide)).1 "A" (by decide),
   (buildPrompt_contains_models "X" ["A", "B"] "" "random" "discussion"
      (by decide) (by decide) (by decide)).2⟩

/-- The character 香 (fragrance) occurs in the `beautyNotes` block and in no
    other fixed fragment of either `buildPrompt` template. -/
theorem count_xiang_fixed :
    countChar bp1 '香' = 0 ∧ countChar bp2 '香' = 0 ∧ countChar bp3 '香' = 0
    ∧ countChar suitLine '香' = 0 ∧ countChar bp4 '香' = 0 ∧ countChar bp5 '香' = 0
    ∧ countChar bp6 '香' = 0 ∧ countChar bp7 '香' = 0 ∧ countChar np1 '香' = 0
    ∧ countChar np2 '香' = 0 ∧ 1 ≤ countChar beautyNotes '香' := by
  decide

/-- Neither style hint mentions 香. -/
theorem count_xiang_styleHint (ws : String) :
    countChar (buildPromptStyleHint ws) '香' = 0 := by
  unfold buildPromptStyleHint
  split_ifs <;> decide

/-- Away from the beauty-with-models branch, and for 香-free inputs, the
    whole prompt is 香-free. -/
theorem count_xiang_buildPrompt_zero (title : String) (models : List String)
    (digest ws ct : String) (hm : Bool)
    (ht : '香' ∉ title.data) (hms : '香' ∉ (joinSep "、" models).data)
    (hd : '香' ∉ digest.data) (hnb : hm = false ∨ ct ≠ "beauty") :
    countChar (buildPrompt title models digest hm ws ct) '香' = 0 := by
  have h0 := countChar_eq_zero _ _ ht
  have h1 := countChar_eq_zero _ _ hms
  have h2 := countChar_eq_zero _ _ hd
  have h3 := count_xiang_styleHint ws
  obtain ⟨c1, c2, c3, c4, c5, c6, c7, c8, c9, c10, -⟩ := count_xiang_fixed
  cases hm with
  | false =>
    rw [buildPrompt_false_eq]
    simp [countChar_append, h0, h3, c9, c10]
  | true =>
    have hct : ct ≠ "beauty" := by
      rcases hnb with h | h
      · cases h
      · exact h
    rw [buildPrompt_true_eq, if_neg hct]
    simp [countChar_append, h0, h1, h2, h3, c1, c2, c3, c4, c5, c6, c7, c8]

/-- C5: for inputs that do not themselves contain the character 香, the
    output of `buildPrompt` contains the fragrance top/heart/base-note
    instruction text if and only if the content type is "beauty" and the
    with-models branch is taken; for any other content type, and for the
    no-models branch regardless of content type, that text is absent. -/
theorem buildPrompt_beautyNotes_iff (title : String) (models : List String)
    (digest ws ct : String) (hm : Bool)
    (ht : '香' ∉ title.data) (hms : '香' ∉ (joinSep "、" models).data)
    (hd : '香' ∉ digest.data) :
    beautyNotes.data <:+: (buildPrompt title models digest hm ws ct).data
      ↔ (hm = true ∧ ct = "beauty") := by
  constructor
  · intro h
    by_contra hcon
    have hnb : hm = false ∨ ct ≠ "beauty" := by
      cases hm with
      | false => exact Or.inl rfl
      | true =>
        right
        intro hct
        exact hcon ⟨rfl, hct⟩
    have hz := count_xiang_buildPrompt_zero title models digest ws ct hm ht hms hd hnb
    have hle := countChar_le_of_infix _ _ '香' h
    rw [hz] at hle
    have hb : 1 ≤ countChar beautyNotes '香' :=
      count_xiang_fixed.2.2.2.2.2.2.2.2.2.2
    omega
  · rintro ⟨rfl, rfl⟩
    rw [buildPrompt_true_eq, if_pos rfl]
    exact strInfix_append_l _ _ _ (strInfix_append_l _ _ _ (strInfix_append_l _ _ _
      (strInfix_append_l _ _ _ (strInfix_append_l _ _ _
      (strInfix_append_r _ _ _ (strInfix_self _))))))

/-- C5 witness: a concrete beauty-with-models prompt does contain the
    fragrance-note instruction block. -/
theorem buildPrompt_beautyNotes_iff_witness :
    beautyNotes.data <:+: (buildPrompt "X" ["A"] "" true "random" "beauty").data :=
  (buildPrompt_beautyNotes_iff "X" ["A"] "" "random" "beauty" true
      (by decide) (by decide) (by decide)).mpr ⟨rfl, rfl⟩

/-- Requests that pass both validation checks reach the completion step. -/
theorem generatePOST_pastValidation (env : Env) (body : GenerateRequest)
    (fr : FetchResult) (now : String)
    (hv1 : jsTrim (body.title.getD "") ≠ "")
    (hv2 : processModels (body.models.getD []) = []
            ∨ (body.searchData.getD []).isEmpty = false) :
    generatePOST env body fr now
      = completionStep env fr (jsTrim (body.title.getD ""))
          (processModels (body.models.getD []))
          (orElseStr body.contentType "discussion")
          (orElseStr body.stylePreference "random") now := by
  rcases hv2 with h | h
  · simp [generatePOST, hv1, h]
  · simp [generatePOST, hv1, h]

/-- The completion step never produces the missing-search-data 400. -/
theorem completionStep_ne_missing_sd (env : Env) (fr : FetchResult)
    (t : String) (m : List String) (ct sp now : String) :
    completionStep env fr t m ct sp now ≠ .err 400 "缺少搜索数据 searchData" := by
  intro h
  unfold completionStep at h
  by_cases hk : aiKeyOf env = ""
  · simp [hk] at h
  · cases fr with
    | exn isError name msg =>
      rw [if_neg hk] at h
      cases isError <;> simp at h <;> split_ifs at h <;> simp_all
    | resp ok stat stx bt content =>
      rw [if_neg hk] at h
      cases ok <;> simp at h
      split_ifs at h <;> simp_all

/-- A successful response carries exactly the computed metadata. -/
theorem completionStep_ok_inv (env : Env) (fr : FetchResult)
    (t : String) (m : List String) (ct sp now : String)
    (a : String) (meta : GenMetadata)
    (h : completionStep env fr t m ct sp now = .ok a meta) :
    meta = ⟨t, m, ct, sp, now⟩ := by
  unfold completionStep at h
  by_cases hk : aiKeyOf env = ""
  · simp [hk] at h
  · cases fr with
    | exn isError name msg =>
      rw [if_neg hk] at h
      cases isError <;> simp at h <;> split_ifs at h <;> simp_all
    | resp ok stat stx bt content =>
      rw [if_neg hk] at h
      cases ok <;> simp at h
      by_cases hc : content.getD "" = ""
      · simp [hc] at h
      · simp [hc] at h
        exact h.2.symm

/-- C1: the generate handler answers 400 when the title is missing or trims
    to the empty string, and 400 when the trimmed/filtered models list is
    non-empty but `searchData` is absent or has no keys; a request with a
    non-empty title and no (surviving) models is not rejected for lacking
    `searchData` — with a configured credential and a completion returning
    non-empty text it succeeds with `metadata.models = []`. -/
theorem generate_validation (env : Env) (body : GenerateRequest)
    (fr : FetchResult) (now : String) :
    (jsTrim (body.title.getD "") = "" →
        generatePOST env body fr now = .err 400 "标题不能为空")
    ∧ (jsTrim (body.title.getD "") ≠ "" →
        processModels (body.models.getD []) ≠ [] →
        (body.searchData.getD []).isEmpty = true →
        generatePOST env body fr now = .err 400 "缺少搜索数据 searchData")
    ∧ (∀ (article : String) (stat : Nat) (stx : String) (bt : Option String),
        jsTrim (body.title.getD "") ≠ "" →
        processModels (body.models.getD []) = [] →
        aiKeyOf env ≠ "" → article ≠ "" →
        generatePOST env body (.resp true stat stx bt (some article)) now
          = .ok article ⟨jsTrim (body.title.getD ""), [],
              orElseStr body.contentType "discussion",
              orElseStr body.stylePreference "random", now⟩) := by
  refine ⟨?_, ?_, ?_⟩
  · intro h; simp [generatePOST, h]
  · intro h1 h2 h3
    have hne : (processModels (body.models.getD [])).isEmpty = false := by
      cases hpm : processModels (body.models.getD []) with
      | nil => exact absurd hpm h2
      | cons a r => rfl
    simp [generatePOST, h1, hne, h3]
  · intro article stat stx bt h1 h2 hk ha
    rw [generatePOST_pastValidation env body _ now h1 (Or.inl h2), h2]
    simp [completionStep, hk, ha]

/-- C1 witness: a request with no title field is rejected with 400. -/
theorem generate_validation_witness :
    generatePOST {} {} (.exn true "AbortError" "") "t" = .err 400 "标题不能为空" :=
  (generate_validation {} {} (.exn true "AbortError" "") "t").1 (by decide)

/- Helpers for distinguishing the failure messages. -/

theorem data_take_prefix_append (a b : String) (n : Nat)
    (h : n ≤ a.data.length) : ((a ++ b).data).take n = a.data.take n := by
  rw [String.data_append]
  exact List.take_append_of_le_length h

theorem str_ne_of_take (a b : String) (n : Nat)
    (h : a.data.take n ≠ b.data.take n) : a ≠ b := by
  intro he
  exact h (by rw [he])

theorem connectMsg_take1 (url : String) : (connectMsg url).data.take 1 = ['无'] := by
  unfold connectMsg
  have hlit : ("无法连接到 API 服务器 (" : String).data.length = 15 := by decide
  have h1 : (("无法连接到 API 服务器 (" ++ url) ++ ")，请检查网络连接或 API 地址配置").data.take 1
      = ("无法连接到 API 服务器 (" ++ url).data.take 1 := by
    apply data_take_prefix_append
    rw [String.data_append, List.length_append]
    omega
  have h2 : ("无法连接到 API 服务器 (" ++ url).data.take 1
      = ("无法连接到 API 服务器 (" : String).data.take 1 :=
    data_take_prefix_append _ _ 1 (by omega)
  rw [h1, h2]
  decide

theorem upstreamMsg_take5 (stat : Nat) (b : String) :
    (upstreamMsg stat b).data.take 5 = ['A', 'P', 'I', ' ', '调'] := by
  unfold upstreamMsg
  have hlit : ("API 调用失败 (" : String).data.length = 10 := by decide
  have hsep : ("): " : String).data.length = 3 := by decide
  have h1 : ((("API 调用失败 (" ++ toString stat) ++ "): ") ++ take200 b).data.take 5
      = (("API 调用失败 (" ++ toString stat) ++ "): ").data.take 5 := by
    apply data_take_prefix_append
    rw [String.data_append, List.length_append, String.data_append, List.length_append]
    omega
  have h2 : (("API 调用失败 (" ++ toString stat) ++ "): ").data.take 5
      = ("API 调用失败 (" ++ toString stat).data.take 5 := by
    apply data_take_prefix_append
    rw [String.data_append, List.length_append]
    omega
  have h3 : ("API 调用失败 (" ++ toString stat).data.take 5
      = ("API 调用失败 (" : String).data.take 5 :=
    data_take_prefix_append _ _ 5 (by omega)
  rw [h1, h2, h3]
  decide

theorem upstreamMsg_take1 (stat : Nat) (b : String) :
    (upstreamMsg stat b).data.take 1 = ['A'] := by
  have h := upstreamMsg_take5 stat b
  have h2 : (upstreamMsg stat b).data.take 1
      = ((upstreamMsg stat b).data.take 5).take 1 := by
    rw [List.take_take]
    norm_num
  rw [h2, h]
  decide

/-- C2: for every generate request that passes validation, the completion
    call is guarded by a 120-second (120000 ms) timeout whose abort maps to a
    distinct timeout message; a transport-level connection failure maps to a
    cannot-reach-endpoint message naming the endpoint; a non-2xx upstream
    response maps to an upstream-error message containing the response body
    truncated to 200 characters; a 2xx response with empty extracted text
    maps to the empty-generation message; all four 500-messages are pairwise
    distinct; and the missing-credential check yields its own 500 before any
    network call — the response is then independent of the fetch outcome. -/
theorem generate_completion_failure_modes (env : Env) (body : GenerateRequest)
    (now : String)
    (hv1 : jsTrim (body.title.getD "") ≠ "")
    (hv2 : processModels (body.models.getD []) = []
            ∨ (body.searchData.getD []).isEmpty = false)
    (hkey : aiKeyOf env ≠ "") :
    timeoutMs = 120000
    ∧ (∀ msg, generatePOST env body (.exn true "AbortError" msg) now
        = .err 500 timeoutMsg)
    ∧ (∀ name msg, containsStr msg "timeout" = true →
        generatePOST env body (.exn true name msg) now = .err 500 timeoutMsg)
    ∧ (∀ name msg, name ≠ "AbortError" → containsStr msg "timeout" = false →
        (containsStr msg "Failed to fetch" = true ∨ containsStr msg "fetch failed" = true) →
        generatePOST env body (.exn true name msg) now
          = .err 500 (connectMsg (aiUrlOf env)))
    ∧ (∀ (stat : Nat) (stx : String) (bt content : Option String),
        generatePOST env body (.resp false stat stx bt content) now
          = .err 500 (upstreamMsg stat (bt.getD stx)))
    ∧ (∀ (stat : Nat) (stx : String) (bt : Option String),
        generatePOST env body (.resp true stat stx bt none) now = .err 500 emptyGenMsg
        ∧ generatePOST env body (.resp true stat stx bt (some "")) now
            = .err 500 emptyGenMsg)
    ∧ (∀ (env2 : Env) (body2 : GenerateRequest) (now2 : String)
          (fr fr2 : FetchResult), aiKeyOf env2 = "" →
        jsTrim (body2.title.getD "") ≠ "" →
        (processModels (body2.models.getD []) = []
          ∨ (body2.searchData.getD []).isEmpty = false) →
        generatePOST env2 body2 fr now2 = .err 500 "AI_API_KEY 未配置"
        ∧ generatePOST env2 body2 fr now2 = generatePOST env2 body2 fr2 now2)
    ∧ (∀ (stat : Nat) (b : String),
        (take200 b).data <:+: (upstreamMsg stat b).data ∧ (take200 b).length ≤ 200)
    ∧ (∀ url, timeoutMsg ≠ connectMsg url)
    ∧ (∀ (stat : Nat) (b : String), timeoutMsg ≠ upstreamMsg stat b)
    ∧ timeoutMsg ≠ emptyGenMsg
    ∧ (∀ url (stat : Nat) (b : String), connectMsg url ≠ upstreamMsg stat b)
    ∧ (∀ url, connectMsg url ≠ emptyGenMsg)
    ∧ (∀ (stat : Nat) (b : String), upstreamMsg stat b ≠ emptyGenMsg) := by
  have hb := fun fr => generatePOST_pastValidation env body fr now hv1 hv2
  refine ⟨rfl, ?_, ?_, ?_, ?_, ?_, ?_, ?_, ?_, ?_, ?_, ?_, ?_, ?_⟩
  · intro msg
    rw [hb]
    simp [completionStep, hkey]
  · intro name msg h
    rw [hb]
    simp [completionStep, hkey, h]
  · intro name msg h1 h2 h3
    rw [hb]
    rcases h3 with h3 | h3 <;> simp [completionStep, hkey, h1, h2, h3]
  · intro stat stx bt content
    rw [hb]
    simp [completionStep, hkey]
  · intro stat stx bt
    constructor <;> (rw [hb]; simp [completionStep, hkey])
  · intro env2 body2 now2 fr fr2 hk2 ht2 hv22
    constructor
    · rw [generatePOST_pastValidation env2 body2 fr now2 ht2 hv22]
      simp [completionStep, hk2]
    · rw [generatePOST_pastValidation env2 body2 fr now2 ht2 hv22,
          generatePOST_pastValidation env2 body2 fr2 now2 ht2 hv22]
      simp [completionStep, hk2]
  · intro stat b
    constructor
    · unfold upstreamMsg
      exact strInfix_append_r _ _ _ (strInfix_self _)
    · show (b.data.take 200).length ≤ 200
      exact List.length_take_le _ _
  · intro url
    exact str_ne_of_take _ _ 1 (by rw [connectMsg_take1]; decide)
  · intro stat b
    exact str_ne_of_take _ _ 5 (by rw [upstreamMsg_take5]; decide)
  · decide
  · intro url stat b
    exact str_ne_of_take _ _ 1 (by rw [connectMsg_take1, upstreamMsg_take1]; decide)
  · intro url
    exact str_ne_of_take _ _ 1 (by rw [connectMsg_take1]; decide)
  · intro stat b
    exact str_ne_of_take _ _ 1 (by rw [upstreamMsg_take1]; decide)

/-- C2 witness: with a configured key and a valid body, an aborted fetch
    yields the 500 timeout message. -/
theorem generate_completion_failure_modes_witness :
    generatePOST { aiApiKey := some "k" } { title := some "T" }
        (.exn true "AbortError" "x") "now" = .err 500 timeoutMsg :=
  (generate_completion_failure_modes { aiApiKey := some "k" } { title := some "T" }
      "now" (by decide) (Or.inl (by decide)) (by decide)).2.1 "x"

/-- C10: before validation and before being echoed in the metadata, the
    handler trims every entry of `models`, drops entries that become empty
    and keeps only the first 3; an all-whitespace models list is treated as
    having no models (`searchData` is not required and the no-product
    template is used), and the metadata of every success carries exactly the
    processed list — hence at most 3 trimmed, non-empty names. -/
theorem generate_models_pipeline (env : Env) (body : GenerateRequest)
    (fr : FetchResult) (now : String) :
    ((processModels (body.models.getD [])).length ≤ 3)
    ∧ (∀ m ∈ processModels (body.models.getD []),
        m ≠ "" ∧ ∃ o ∈ body.models.getD [], m = jsTrim o)
    ∧ ((∀ m ∈ body.models.getD [], jsTrim m = "") →
        processModels (body.models.getD []) = []
        ∧ generatePOST env body fr now ≠ .err 400 "缺少搜索数据 searchData"
        ∧ generateUserPrompt body
            = buildPrompt (jsTrim (body.title.getD "")) [] "" false
                (orElseStr body.stylePreference "random")
                (orElseStr body.contentType "discussion"))
    ∧ (∀ (a : String) (meta : GenMetadata),
        generatePOST env body fr now = .ok a meta →
        meta.models = processModels (body.models.getD [])
        ∧ meta.models.length ≤ 3
        ∧ ∀ m ∈ meta.models, m ≠ "" ∧ ∃ o ∈ body.models.getD [], m = jsTrim o) := by
  have hmem : ∀ m ∈ processModels (body.models.getD []),
      m ≠ "" ∧ ∃ o ∈ body.models.getD [], m = jsTrim o := by
    intro m hm
    unfold processModels at hm
    have hm' := List.mem_of_mem_take hm
    rw [List.mem_filter] at hm'
    obtain ⟨hmm, hpred⟩ := hm'
    constructor
    · intro he
      subst he
      exact absurd hpred (by decide)
    · obtain ⟨o, ho, rfl⟩ := List.mem_map.mp hmm
      exact ⟨o, ho, rfl⟩
  have hlen : (processModels (body.models.getD [])).length ≤ 3 :=
    List.length_take_le _ _
  refine ⟨hlen, hmem, ?_, ?_⟩
  · intro hall
    have hpm : processModels (body.models.getD []) = [] := by
      unfold processModels
      have hf : ((body.models.getD []).map jsTrim).filter (fun s => !s.isEmpty) = [] := by
        rw [List.filter_eq_nil_iff]
        intro a ha
        obtain ⟨o, ho, rfl⟩ := List.mem_map.mp ha
        rw [hall o ho]
        decide
      rw [hf]
      rfl
    refine ⟨hpm, ?_, ?_⟩
    · by_cases ht : jsTrim (body.title.getD "") = ""
      · simp [generatePOST, ht]
      · rw [generatePOST_pastValidation env body fr now ht (Or.inl hpm)]
        exact completionStep_ne_missing_sd _ _ _ _ _ _ _
    · simp [generateUserPrompt, hpm]
  · intro a meta h
    by_cases ht : jsTrim (body.title.getD "") = ""
    · simp [generatePOST, ht] at h
    · by_cases hsd : (!(processModels (body.models.getD [])).isEmpty
          && (body.searchData.getD []).isEmpty) = true
      · simp only [generatePOST] at h
        rw [if_neg ht, if_pos hsd] at h
        simp at h
      · simp only [generatePOST] at h
        rw [if_neg ht, if_neg hsd] at h
        have hmeta := completionStep_ok_inv _ _ _ _ _ _ _ _ _ h
        subst hmeta
        exact ⟨rfl, hlen, hmem⟩

/-- C10 witness: a request whose models are all whitespace is not rejected
    for lacking search data. -/
theorem generate_models_pipeline_witness :
    generatePOST {} { title := some "X", models := some [" ", "  "] }
        (.exn true "AbortError" "") "t" ≠ .err 400 "缺少搜索数据 searchData" :=
  ((generate_models_pipeline {} { title := some "X", models := some [" ", "  "] }
      (.exn true "AbortError" "") "t").2.2.1 (by decide)).2.1

/-- C8 witness: a singleton item list renders as its "- title: snippet"
    block. -/
theorem formatSearchData_digest_shape_witness :
    digestBlock "M" [⟨"t", "s", none, none⟩]
      = "M" ++ "：\n"
          ++ joinSep "\n" ((([⟨"t", "s", none, none⟩] : List GenItem).take 4).map digestLine) :=
  (formatSearchData_digest_shape.2.2.1 "M" [⟨"t", "s", none, none⟩]).2 (by decide)
